import Mathlib

/-!
Verification development for the NetWorthCalculator repository
(Aggregation & Classification Engine and its frontend views).

The backend business-logic layer (FastAPI `services.py` / `main.py`) is not
part of the provided sources; the engine is therefore modelled from the
specification (each such definition carries a doc comment starting
`Modelled from the spec:`).  The React frontend components are present and
the definitions for them are transcribed from that source.
-/

namespace NetWorthCalc

/-- Spending classification tier {necessary, discretionary, frivolous}. -/
inductive Tier where
  | necessary
  | discretionary
  | frivolous
deriving DecidableEq, Repr

/-- CategoryConfig class: a provider category is mapped essential or
discretionary. -/
inductive CatClass where
  | essential
  | discretionaryClass
deriving DecidableEq, Repr

/-- A locally mirrored transaction: external id, date (ordinal within the
month), amount (positive = outflow), provider category (optional), and the
cached classification tier. -/
structure Txn where
  txnId : Nat
  date : Nat
  amount : Int
  category : Option String
  tier : Tier
deriving DecidableEq, Repr

/-- Modelled from the spec: CategoryConfig lookup (spec section 4.3 steps 1 and 3).
A category mapped in the config gets its mapped class; an unmapped or
missing category defaults to discretionary. -/
def catClass (cfg : List (String × CatClass)) (c : Option String) : CatClass :=
  match c with
  | none => CatClass.discretionaryClass
  | some name =>
    match cfg.find? (fun p => p.1 == name) with
    | some p => p.2
    | none => CatClass.discretionaryClass

/-- Budget state: the optional single main (wallet-wide) monthly limit and
the per-category monthly limits. -/
structure Budgets where
  main : Option Int
  cats : List (String × Int)
deriving DecidableEq, Repr

/-- Add an amount to a running per-category total (association list). -/
def addTo (m : List (String × Int)) (k : String) (v : Int) : List (String × Int) :=
  match m with
  | [] => [(k, v)]
  | p :: rest => if p.1 == k then (p.1, p.2 + v) :: rest else p :: addTo rest k v

/-- Look up a running per-category total, defaulting to 0. -/
def lookupD (m : List (String × Int)) (k : String) : Int :=
  match m.find? (fun p => p.1 == k) with
  | some p => p.2
  | none => 0

/-- Modelled from the spec: the budget-exceeded test of classification step 2
(spec section 4.3).  Given the month-to-date totals up to and including the
current transaction, the transaction's category budget (if one exists) OR
the main budget is exceeded when the corresponding running total is
strictly above the limit. -/
def exceededAt (b : Budgets) (c : Option String) (mainTot : Int)
    (catTots : List (String × Int)) : Bool :=
  let catHit :=
    match c with
    | none => false
    | some name =>
      match b.cats.find? (fun p => p.1 == name) with
      | some p => decide (p.2 < lookupD catTots name)
      | none => false
  let mainHit :=
    match b.main with
    | some lim => decide (lim < mainTot)
    | none => false
  catHit || mainHit

/-- Modelled from the spec: tier for one transaction (spec section 4.3 steps 1-3),
given the running totals that already include this transaction.  Essential
spend is always necessary; otherwise the tier is frivolous exactly when the
category or main budget is exceeded as of this transaction, else
discretionary. -/
def tierOf (cfg : List (String × CatClass)) (b : Budgets) (t : Txn)
    (mainTot : Int) (catTots : List (String × Int)) : Tier :=
  match catClass cfg t.category with
  | CatClass.essential => Tier.necessary
  | CatClass.discretionaryClass =>
    if exceededAt b t.category mainTot catTots then Tier.frivolous
    else Tier.discretionary

/-- Modelled from the spec: the classification scan over a month's
transactions in list order (the caller supplies them in ascending date
order), threading the running main total and per-category totals; each
transaction's cached tier is overwritten with the tier computed from the
totals up to and including it. -/
def classifyFrom (cfg : List (String × CatClass)) (b : Budgets) :
    List Txn → Int → List (String × Int) → List Txn
  | [], _, _ => []
  | t :: rest, mainTot, catTots =>
    let mainTot' := mainTot + t.amount
    let catTots' :=
      match t.category with
      | none => catTots
      | some name => addTo catTots name t.amount
    { t with tier := tierOf cfg b t mainTot' catTots' } ::
      classifyFrom cfg b rest mainTot' catTots'

/-- Modelled from the spec: `reclassify_scope` / initial classification of a
month (spec section 4.3): re-runs step 2 for every transaction of the month in
ascending date order starting from zero running totals. -/
def classifyMonth (cfg : List (String × CatClass)) (b : Budgets)
    (txs : List Txn) : List Txn :=
  classifyFrom cfg b txs 0 []

/-! ## Net Worth Aggregator (modelled from the spec, section 4.2) -/

/-- Account type {depository, credit, investment, loan}. -/
inductive AccountType where
  | depository
  | credit
  | investment
  | loan
deriving DecidableEq, Repr

/-- A financial account with its latest known signed balance. -/
structure Account where
  name : String
  accountType : AccountType
  balance : Int
deriving DecidableEq, Repr

/-- One daily net-worth snapshot. -/
structure Snapshot where
  totalAssets : Int
  totalLiabilities : Int
  totalCash : Int
  totalInvestments : Int
  netWorthVal : Int
deriving DecidableEq, Repr

/-- Sum of the balances of the accounts kept by a filter. -/
def sumBalances (p : Account → Bool) (accs : List Account) : Int :=
  (accs.filter p).foldl (fun s a => s + a.balance) 0

/-- Modelled from the spec: the balance fold of `recompute_net_worth`
(spec section 4.2).  Partition by account type: depository balances are cash,
investment balances are investments; a credit or loan account with a
negative balance contributes its magnitude to liabilities; assets are
cash + investments + any positive-balance credit accounts; net worth is
assets minus liabilities. -/
def snapshotOf (accs : List Account) : Snapshot :=
  let cash := sumBalances (fun a => a.accountType == AccountType.depository) accs
  let invest := sumBalances (fun a => a.accountType == AccountType.investment) accs
  let liab := (accs.filter (fun a =>
    a.accountType == AccountType.credit || a.accountType == AccountType.loan)).foldl
      (fun s a => s + max (-a.balance) 0) 0
  let creditAssets := (accs.filter (fun a =>
    a.accountType == AccountType.credit)).foldl (fun s a => s + max a.balance 0) 0
  let assets := cash + invest + creditAssets
  { totalAssets := assets, totalLiabilities := liab, totalCash := cash,
    totalInvestments := invest, netWorthVal := assets - liab }

/-- Modelled from the spec: the idempotent NetWorthHistory upsert keyed by
date (spec sections 3 and 4.2): if a row for the date exists it is overwritten,
otherwise one row is appended. -/
def upsertSnapshot : List (Nat × Snapshot) → Nat → Snapshot →
    List (Nat × Snapshot)
  | [], d, s => [(d, s)]
  | p :: rest, d, s =>
    if p.1 = d then (d, s) :: rest else p :: upsertSnapshot rest d s

/-- Modelled from the spec: `recompute_net_worth(as_of_date)` (spec section 4.2):
reads the latest account balances, folds them into a snapshot and upserts
one NetWorthHistory row for the date; returns the snapshot and the updated
history. -/
def recomputeNetWorth (accs : List Account) (d : Nat)
    (h : List (Nat × Snapshot)) : Snapshot × List (Nat × Snapshot) :=
  (snapshotOf accs, upsertSnapshot h d (snapshotOf accs))

/-! ## Sync Orchestrator (modelled from the spec, sections 4.1 and 7) -/

/-- Provider-side payload of one transaction record. -/
structure TxnData where
  date : Nat
  amount : Int
  category : Option String
deriving DecidableEq, Repr

/-- One event of the provider's transaction change stream: an addition, a
modification or a removal, keyed by external transaction id. -/
inductive ChangeEvent where
  | added (txnId : Nat) (data : TxnData)
  | modified (txnId : Nat) (data : TxnData)
  | removed (txnId : Nat)
deriving DecidableEq, Repr

/-- Upsert of a mirrored transaction keyed by external id. -/
def upsertTxn : List (Nat × TxnData) → Nat → TxnData → List (Nat × TxnData)
  | [], id, d => [(id, d)]
  | p :: rest, id, d =>
    if p.1 = id then (id, d) :: rest else p :: upsertTxn rest id d

/-- Modelled from the spec: applying one change event to the local
transaction mirror (spec section 4.1 step 3): adds and modifications are
upserts keyed by external transaction id, removals are local deletes. -/
def applyEvent (txns : List (Nat × TxnData)) : ChangeEvent → List (Nat × TxnData)
  | ChangeEvent.added id d => upsertTxn txns id d
  | ChangeEvent.modified id d => upsertTxn txns id d
  | ChangeEvent.removed id => txns.filter (fun p => p.1 != id)

/-- LinkedItem status {active, error, revoked}. -/
inductive ItemStatus where
  | active
  | errorStatus
  | revoked
deriving DecidableEq, Repr

/-- Persisted per-item sync state: the stored cursor (position consumed in
the provider's change stream), the item status and the mirrored
transactions. -/
structure ItemState where
  itemId : Nat
  cursor : Nat
  status : ItemStatus
  txns : List (Nat × TxnData)
deriving DecidableEq, Repr

/-- Outcome of the provider fetch for one item during one sync: the full
change stream (from which the portion after the stored cursor is the new
window), a transient error, or a terminal error. -/
inductive ProviderResult where
  | ok (stream : List ChangeEvent)
  | transientErr
  | terminalErr
deriving DecidableEq, Repr

/-- Error taxonomy surfaced per item by the orchestrator. -/
inductive SyncError where
  | transientProviderError
  | terminalProviderError
deriving DecidableEq, Repr

/-- Modelled from the spec: `sync_item` (spec sections 4.1 and 7).  On a
successful fetch the batch after the stored cursor is applied and the
cursor set to the end of the stream; the batch application and the cursor
advance form one atomic state transition (all-or-nothing commit).  On a
transient error the item is left unchanged and active; on a terminal error
only the status changes to error — cursor and data are untouched. -/
def syncItem (p : ProviderResult) (it : ItemState) : ItemState × Option SyncError :=
  match p with
  | ProviderResult.ok stream =>
    ({ it with txns := (stream.drop it.cursor).foldl applyEvent it.txns,
               cursor := stream.length }, none)
  | ProviderResult.transientErr => (it, some SyncError.transientProviderError)
  | ProviderResult.terminalErr =>
    ({ it with status := ItemStatus.errorStatus },
      some SyncError.terminalProviderError)

/-- Modelled from the spec: `sync_all()` (spec section 4.1 step 4): each linked
item is synced independently against its own provider outcome; a per-item
result or error is collected and the loop continues past failed items. -/
def syncAll : List ProviderResult → List ItemState →
    List (ItemState × Option SyncError)
  | p :: ps, it :: items => syncItem p it :: syncAll ps items
  | _, _ => []

/-! ## Budget Status Service (modelled from the spec, section 4.4) -/

/-- Keep the transactions of a budget scope: the main scope keeps every
transaction of the month, a category scope keeps that category's. -/
def inScope (scope : Option String) (t : Txn) : Bool :=
  match scope with
  | none => true
  | some c => t.category == some c

/-- One budget status entry {limit, spent, remaining, percentage}. -/
structure StatusEntry where
  limit : Int
  spent : Int
  remaining : Int
  percentage : Rat
deriving DecidableEq, Repr

/-- Month-to-date spend of a scope: the sum of the amounts of the month's
transactions in the scope, every tier counting. -/
def spentOf (scope : Option String) (txs : List Txn) : Int :=
  (txs.filter (inScope scope)).foldl (fun s t => s + t.amount) 0

/-- Modelled from the spec: `status(year, month)` for one budget (spec
section 4.4).  Pure read: spent is the sum of the amounts of the month's
transactions in the scope, every tier counting; percentage is
spent/limit x 100 with no cap; remaining is limit minus spent and may be
negative. -/
def budgetStatus (limit : Int) (scope : Option String) (txs : List Txn) :
    StatusEntry :=
  { limit := limit, spent := spentOf scope txs,
    remaining := limit - spentOf scope txs,
    percentage := (spentOf scope txs : Rat) / (limit : Rat) * 100 }

/-- Overwrite every cached tier with an arbitrary retagging (used to state
that budget status is tier-blind). -/
def retier (f : Tier → Tier) (txs : List Txn) : List Txn :=
  txs.map (fun t => { t with tier := f t.tier })

/-! ## Frontend definitions (transcribed from src/frontend and the
Spending component) -/

/-- From Budgets.js: the progress-bar width style clamps the percentage at
100 (`Math.min(percentage, 100)`). -/
def progressBarWidth (percentage : Rat) : Rat := min percentage 100

/-- From Budgets.js: the remaining line renders `remaining` when it is
nonnegative and the absolute value as an over-budget amount otherwise;
the pair is (displayed magnitude, rendered as over-budget). -/
def remainingDisplay (remaining : Int) : Int × Bool :=
  if 0 ≤ remaining then (remaining, false) else (-remaining, true)

/-- The three tier labels of the Spending transaction table. -/
inductive StatusLabel where
  | frivolousLabel
  | discretionaryLabel
  | necessaryLabel
deriving DecidableEq, Repr

/-- From the Spending component's status cell: `is_frivolous` wins, then
`is_discretionary`, else the Necessary label. -/
def statusCell (is_frivolous : Bool) (is_discretionary : Bool) : StatusLabel :=
  if is_frivolous then StatusLabel.frivolousLabel
  else if is_discretionary then StatusLabel.discretionaryLabel
  else StatusLabel.necessaryLabel

/-- Result of Dashboard.getChange. -/
structure ChangeResult where
  amount : Rat
  percent : Rat
deriving DecidableEq, Repr

/-- From Dashboard.getChange: zero change when the history has fewer than
two points; otherwise amount is last minus first net worth and percent is
guarded by `first > 0`. -/
def getChange (history : List Rat) : ChangeResult :=
  if history.length < 2 then { amount := 0, percent := 0 }
  else
    let first := history.headD 0
    let last := history.getLastD 0
    { amount := last - first,
      percent := if 0 < first then (last - first) / first * 100 else 0 }

/-- A holding row as consumed by the Investments component (fields may be
null). -/
structure Holding where
  current_value : Option Rat
  cost_basis : Option Rat
deriving DecidableEq, Repr

/-- From Investments.js: total portfolio value, null values counting 0. -/
def totalValue (hs : List Holding) : Rat :=
  hs.foldl (fun s h => s + h.current_value.getD 0) 0

/-- From Investments.js: total cost basis, null values counting 0. -/
def totalCostBasis (hs : List Holding) : Rat :=
  hs.foldl (fun s h => s + h.cost_basis.getD 0) 0

/-- From Investments.js: the portfolio gain/loss percent, guarded by
`totalCostBasis > 0`. -/
def totalGainLossPercent (hs : List Holding) : Rat :=
  if 0 < totalCostBasis hs then
    (totalValue hs - totalCostBasis hs) / totalCostBasis hs * 100
  else 0

/-- From the Spending component: a category's share of total spending,
guarded by `totalSpending > 0`. -/
def categoryPercent (catTotal totalSpending : Rat) : Rat :=
  if 0 < totalSpending then catTotal / totalSpending * 100 else 0

/-! ## Classification lemmas -/

/-- The classification scan only reads the date-ordered amounts and
categories of the input: rescanning the output of a previous scan (run
with any earlier budget state and running totals) gives the same list as
scanning the raw input. -/
lemma classifyFrom_classifyFrom (cfg : List (String × CatClass))
    (b2 b1 : Budgets) :
    ∀ (txs : List Txn) (mt1 mt : Int) (ct1 ct : List (String × Int)),
    classifyFrom cfg b2 (classifyFrom cfg b1 txs mt1 ct1) mt ct =
      classifyFrom cfg b2 txs mt ct := by
  intro txs
  induction txs with
  | nil => intro mt1 mt ct1 ct; rfl
  | cons t rest ih =>
    intro mt1 mt ct1 ct
    cases t
    simp only [classifyFrom]
    rw [ih]
    simp only [tierOf]

/-- Every transaction emitted by the classification scan whose category is
mapped essential carries tier necessary. -/
lemma classifyFrom_essential (cfg : List (String × CatClass)) (b : Budgets) :
    ∀ (txs : List Txn) (mt : Int) (ct : List (String × Int)) (t : Txn),
    t ∈ classifyFrom cfg b txs mt ct →
    catClass cfg t.category = CatClass.essential →
    t.tier = Tier.necessary := by
  intro txs
  induction txs with
  | nil => intro mt ct t h; simp [classifyFrom] at h
  | cons u rest ih =>
    intro mt ct t h hess
    simp only [classifyFrom, List.mem_cons] at h
    rcases h with h | h
    · subst h
      simp only [tierOf] at *
      rw [hess]
    · exact ih _ _ _ h hess

/-- C2: for every month and budget scope, running reclassify_scope after a
budget-limit change assigns every transaction the same tier it would have
received had the new limit been in effect from the start of the month
(both runs processing the month's transactions in ascending date order),
and running reclassify_scope twice with unchanged inputs leaves every
transaction's tier unchanged. -/
theorem C2_reclassify_scope_correct (cfg : List (String × CatClass))
    (bOld bNew : Budgets) (txs : List Txn)
    (hsorted : List.Sorted (fun t1 t2 => t1.date ≤ t2.date) txs) :
    classifyMonth cfg bNew (classifyMonth cfg bOld txs) =
      classifyMonth cfg bNew txs ∧
    classifyMonth cfg bNew (classifyMonth cfg bNew txs) =
      classifyMonth cfg bNew txs :=
  ⟨classifyFrom_classifyFrom cfg bNew bOld txs 0 0 [] [],
   classifyFrom_classifyFrom cfg bNew bNew txs 0 0 [] []⟩

/-- Witness for C2 at a concrete month: limit changed from 2500 to 2000
over two Shopping transactions in ascending date order. -/
theorem C2_reclassify_scope_correct_witness :
    classifyMonth [("Shopping", CatClass.discretionaryClass)]
        { main := some 2000, cats := [] }
        (classifyMonth [("Shopping", CatClass.discretionaryClass)]
          { main := some 2500, cats := [] }
          [Txn.mk 1 3 1800 (some "Shopping") Tier.necessary,
           Txn.mk 2 9 700 (some "Shopping") Tier.necessary]) =
      classifyMonth [("Shopping", CatClass.discretionaryClass)]
        { main := some 2000, cats := [] }
        [Txn.mk 1 3 1800 (some "Shopping") Tier.necessary,
         Txn.mk 2 9 700 (some "Shopping") Tier.necessary] :=
  (C2_reclassify_scope_correct [("Shopping", CatClass.discretionaryClass)]
    { main := some 2500, cats := [] } { main := some 2000, cats := [] }
    [Txn.mk 1 3 1800 (some "Shopping") Tier.necessary,
     Txn.mk 2 9 700 (some "Shopping") Tier.necessary] (by decide)).1

/-- C3: with the main budget at 2000 and a month of exactly two
discretionary transactions of 1800 then 700 in date order, the first is
tiered discretionary (cumulative 1800 at most 2000) and the second
frivolous (cumulative 2500 above 2000). -/
theorem C3_main_budget_round_trip :
    classifyMonth [("Shopping", CatClass.discretionaryClass)]
        { main := some 2000, cats := [] }
        [Txn.mk 1 3 1800 (some "Shopping") Tier.necessary,
         Txn.mk 2 9 700 (some "Shopping") Tier.necessary] =
      [Txn.mk 1 3 1800 (some "Shopping") Tier.discretionary,
       Txn.mk 2 9 700 (some "Shopping") Tier.frivolous] := by
  decide

/-- C4: every transaction whose category is mapped essential is classified
necessary regardless of its amount and of any budget state; it is never
tiered frivolous. -/
theorem C4_essential_never_frivolous (cfg : List (String × CatClass))
    (b : Budgets) (txs : List Txn) (t : Txn)
    (hmem : t ∈ classifyMonth cfg b txs)
    (hess : catClass cfg t.category = CatClass.essential) :
    t.tier = Tier.necessary :=
  classifyFrom_essential cfg b txs 0 [] t hmem hess

/-- Witness for C4: a huge essential transaction with both the main and
the category budget already exceeded (limits 0) is still necessary. -/
theorem C4_essential_never_frivolous_witness :
    (Txn.mk 1 2 999999 (some "Rent") Tier.necessary).tier = Tier.necessary :=
  C4_essential_never_frivolous [("Rent", CatClass.essential)]
    { main := some 0, cats := [("Rent", 0)] }
    [Txn.mk 1 2 999999 (some "Rent") Tier.discretionary]
    (Txn.mk 1 2 999999 (some "Rent") Tier.necessary) (by decide) (by decide)

/-! ## Net worth lemmas -/

/-- Upserting the same dated snapshot twice equals upserting it once. -/
lemma upsertSnapshot_upsertSnapshot (d : Nat) (s : Snapshot) :
    ∀ h : List (Nat × Snapshot),
    upsertSnapshot (upsertSnapshot h d s) d s = upsertSnapshot h d s := by
  intro h
  induction h with
  | nil => simp [upsertSnapshot]
  | cons p rest ih =>
    by_cases hp : p.1 = d
    · simp [upsertSnapshot, hp]
    · simp [upsertSnapshot, hp, ih]

/-- After an upsert for date d into a history holding at most one row for
d, the history holds exactly one row for d. -/
lemma countP_upsertSnapshot_self (d : Nat) (s : Snapshot) :
    ∀ h : List (Nat × Snapshot),
    h.countP (fun p => p.1 == d) ≤ 1 →
    (upsertSnapshot h d s).countP (fun p => p.1 == d) = 1 := by
  intro h
  induction h with
  | nil => intro _; simp [upsertSnapshot]
  | cons p rest ih =>
    intro hinv
    by_cases hp : p.1 = d
    · simp only [upsertSnapshot, if_pos hp, List.countP_cons] at *
      simp only [hp, beq_self_eq_true, if_pos] at hinv ⊢
      omega
    · have hpb : (p.1 == d) = false := by simp [hp]
      simp only [upsertSnapshot, if_neg hp, List.countP_cons, hpb] at hinv ⊢
      simpa using ih (by simpa using hinv)

/-- An upsert for date d leaves the row count of every other date
unchanged. -/
lemma countP_upsertSnapshot_ne (d d2 : Nat) (s : Snapshot) (hne : d ≠ d2) :
    ∀ h : List (Nat × Snapshot),
    (upsertSnapshot h d s).countP (fun p => p.1 == d2) =
      h.countP (fun p => p.1 == d2) := by
  intro h
  induction h with
  | nil => simp [upsertSnapshot, hne]
  | cons p rest ih =>
    by_cases hp : p.1 = d
    · simp [upsertSnapshot, hp, List.countP_cons, hne]
    · simp [upsertSnapshot, hp, List.countP_cons, ih]

/-- The upsert preserves the at-most-one-row-per-date invariant. -/
lemma countP_upsertSnapshot_le (d : Nat) (s : Snapshot) (d2 : Nat)
    (h : List (Nat × Snapshot))
    (hinv : h.countP (fun p => p.1 == d2) ≤ 1) :
    (upsertSnapshot h d s).countP (fun p => p.1 == d2) ≤ 1 := by
  by_cases hd : d = d2
  · subst hd
    exact le_of_eq (countP_upsertSnapshot_self d s h hinv)
  · rw [countP_upsertSnapshot_ne d d2 s hd h]
    exact hinv

/-- C5: on the concrete accounts {checking 5000 depository, savings 10000
depository, credit_card -2000 credit, brokerage 20000 investment},
recompute_net_worth yields cash 15000, investments 20000, liabilities
2000, assets 35000 and net worth 33000, and upserts exactly that dated
snapshot row. -/
theorem C5_net_worth_example :
    recomputeNetWorth
        [Account.mk "checking" AccountType.depository 5000,
         Account.mk "savings" AccountType.depository 10000,
         Account.mk "credit_card" AccountType.credit (-2000),
         Account.mk "brokerage" AccountType.investment 20000] 7 [] =
      (Snapshot.mk 35000 2000 15000 20000 33000,
        [(7, Snapshot.mk 35000 2000 15000 20000 33000)]) := by
  decide

/-- C6: recompute_net_worth is idempotent: for any date, calling it twice
with unchanged account balances yields the same snapshot and history as
calling it once, the resulting history holds exactly one row for that
date, and it never holds more than one row per calendar date. -/
theorem C6_recompute_net_worth_idempotent (accs : List Account) (d : Nat)
    (h : List (Nat × Snapshot))
    (hinv : ∀ d2 : Nat, h.countP (fun p => p.1 == d2) ≤ 1) :
    recomputeNetWorth accs d (recomputeNetWorth accs d h).2 =
      recomputeNetWorth accs d h ∧
    ((recomputeNetWorth accs d h).2.countP (fun p => p.1 == d)) = 1 ∧
    ∀ d2 : Nat,
      ((recomputeNetWorth accs d h).2.countP (fun p => p.1 == d2)) ≤ 1 := by
  refine ⟨?_, ?_, ?_⟩
  · simp [recomputeNetWorth, upsertSnapshot_upsertSnapshot]
  · exact countP_upsertSnapshot_self d (snapshotOf accs) h (hinv d)
  · intro d2
    exact countP_upsertSnapshot_le d (snapshotOf accs) d2 h (hinv d2)

/-- Witness for C6 on a concrete non-empty history already holding a row
for the date. -/
theorem C6_recompute_net_worth_idempotent_witness :
    recomputeNetWorth [Account.mk "checking" AccountType.depository 5000] 3
        (recomputeNetWorth [Account.mk "checking" AccountType.depository 5000] 3
          [(3, Snapshot.mk 1 0 1 0 1)]).2 =
      recomputeNetWorth [Account.mk "checking" AccountType.depository 5000] 3
        [(3, Snapshot.mk 1 0 1 0 1)] ∧
    ((recomputeNetWorth [Account.mk "checking" AccountType.depository 5000] 3
        [(3, Snapshot.mk 1 0 1 0 1)]).2.countP (fun p => p.1 == 3)) = 1 ∧
    ((recomputeNetWorth [Account.mk "checking" AccountType.depository 5000] 3
        [(3, Snapshot.mk 1 0 1 0 1)]).2.countP (fun p => p.1 == 9)) ≤ 1 := by
  have hinv : ∀ d2 : Nat,
      ([(3, Snapshot.mk 1 0 1 0 1)].countP (fun p => p.1 == d2)) ≤ 1 := by
    intro d2
    simp only [List.countP_cons, List.countP_nil]
    split <;> simp
  have h := C6_recompute_net_worth_idempotent
    [Account.mk "checking" AccountType.depository 5000] 3
    [(3, Snapshot.mk 1 0 1 0 1)] hinv
  exact ⟨h.1, h.2.1, h.2.2 9⟩

/-! ## Sync lemmas -/

/-- Each position of `syncAll`'s result is the independent sync of the
item at that position against its own provider outcome. -/
lemma syncAll_pos :
    ∀ (ps : List ProviderResult) (items : List ItemState) (i : Nat)
      (p : ProviderResult) (it : ItemState),
    ps[i]? = some p → items[i]? = some it →
    (syncAll ps items)[i]? = some (syncItem p it) := by
  intro ps
  induction ps with
  | nil => intro items i p it hp _; simp at hp
  | cons q qs ih =>
    intro items i p it hp hit
    cases items with
    | nil => simp at hit
    | cons u us =>
      cases i with
      | zero =>
        simp only [List.getElem?_cons_zero, Option.some.injEq] at hp hit
        subst hp
        subst hit
        simp [syncAll]
      | succ n =>
        simp only [List.getElem?_cons_succ] at hp hit
        simpa [syncAll] using ih us n p it hp hit

/-- C1: for every successful sync_item call the stored cursor never
regresses; on a transient or terminal failure mid-batch the cursor and the
mirrored transactions are unchanged, so re-running the sync after a
failure produces the identical end state a direct success would have
produced, and re-running after a success is a no-op on the item state. -/
theorem C1_sync_cursor_discipline (stream : List ChangeEvent)
    (it : ItemState) (hcur : it.cursor ≤ stream.length) :
    it.cursor ≤ (syncItem (ProviderResult.ok stream) it).1.cursor ∧
    (syncItem ProviderResult.transientErr it).1.cursor = it.cursor ∧
    (syncItem ProviderResult.transientErr it).1.txns = it.txns ∧
    (syncItem ProviderResult.terminalErr it).1.cursor = it.cursor ∧
    (syncItem ProviderResult.terminalErr it).1.txns = it.txns ∧
    syncItem (ProviderResult.ok stream)
        (syncItem ProviderResult.transientErr it).1 =
      syncItem (ProviderResult.ok stream) it ∧
    (syncItem (ProviderResult.ok stream)
        (syncItem (ProviderResult.ok stream) it).1).1 =
      (syncItem (ProviderResult.ok stream) it).1 := by
  refine ⟨?_, rfl, rfl, rfl, rfl, rfl, ?_⟩
  · simpa [syncItem] using hcur
  · cases it
    simp [syncItem, List.drop_length]

/-- Witness for C1 on a one-event stream and a fresh item. -/
theorem C1_sync_cursor_discipline_witness :
    (ItemState.mk 1 0 ItemStatus.active []).cursor ≤
      (syncItem (ProviderResult.ok [ChangeEvent.added 1 (TxnData.mk 5 100 none)])
        (ItemState.mk 1 0 ItemStatus.active [])).1.cursor ∧
    syncItem (ProviderResult.ok [ChangeEvent.added 1 (TxnData.mk 5 100 none)])
        (syncItem ProviderResult.transientErr
          (ItemState.mk 1 0 ItemStatus.active [])).1 =
      syncItem (ProviderResult.ok [ChangeEvent.added 1 (TxnData.mk 5 100 none)])
        (ItemState.mk 1 0 ItemStatus.active []) :=
  ⟨(C1_sync_cursor_discipline [ChangeEvent.added 1 (TxnData.mk 5 100 none)]
      (ItemState.mk 1 0 ItemStatus.active []) (by decide)).1,
   (C1_sync_cursor_discipline [ChangeEvent.added 1 (TxnData.mk 5 100 none)]
      (ItemState.mk 1 0 ItemStatus.active []) (by decide)).2.2.2.2.2.1⟩

/-- C7: in one sync_all call, a terminal provider failure of one item does
not prevent any other item from completing its sync: the other item's
collected result equals its standalone sync_item result, which carries no
error, advances the cursor to the end of the stream and so never
regresses it. -/
theorem C7_sync_all_isolation (ps : List ProviderResult)
    (items : List ItemState) (i j : Nat) (p : ProviderResult) (it : ItemState)
    (hfail : ps[j]? = some ProviderResult.terminalErr) (hne : i ≠ j)
    (hp : ps[i]? = some p) (hit : items[i]? = some it) :
    (syncAll ps items)[i]? = some (syncItem p it) ∧
    ∀ stream : List ChangeEvent, p = ProviderResult.ok stream →
      (syncItem p it).2 = none ∧
      (syncItem p it).1.cursor = stream.length ∧
      (it.cursor ≤ stream.length → it.cursor ≤ (syncItem p it).1.cursor) := by
  refine ⟨syncAll_pos ps items i p it hp hit, ?_⟩
  intro stream hstream
  subst hstream
  refine ⟨rfl, rfl, ?_⟩
  intro hle
  simpa [syncItem] using hle

/-- Witness for C7: item 0 fails terminally, item 1 still syncs, reports
no error and advances its cursor to 1. -/
theorem C7_sync_all_isolation_witness :
    (syncAll [ProviderResult.terminalErr,
        ProviderResult.ok [ChangeEvent.added 2 (TxnData.mk 4 50 none)]]
      [ItemState.mk 1 0 ItemStatus.active [],
       ItemState.mk 2 0 ItemStatus.active []])[1]? =
      some (syncItem (ProviderResult.ok [ChangeEvent.added 2 (TxnData.mk 4 50 none)])
        (ItemState.mk 2 0 ItemStatus.active [])) ∧
    (syncItem (ProviderResult.ok [ChangeEvent.added 2 (TxnData.mk 4 50 none)])
      (ItemState.mk 2 0 ItemStatus.active [])).2 = none ∧
    (syncItem (ProviderResult.ok [ChangeEvent.added 2 (TxnData.mk 4 50 none)])
      (ItemState.mk 2 0 ItemStatus.active [])).1.cursor = 1 := by
  have h := C7_sync_all_isolation
    [ProviderResult.terminalErr,
      ProviderResult.ok [ChangeEvent.added 2 (TxnData.mk 4 50 none)]]
    [ItemState.mk 1 0 ItemStatus.active [], ItemState.mk 2 0 ItemStatus.active []]
    1 0 (ProviderResult.ok [ChangeEvent.added 2 (TxnData.mk 4 50 none)])
    (ItemState.mk 2 0 ItemStatus.active [])
    (by decide) (by decide) (by decide) (by decide)
  exact ⟨h.1, (h.2 _ rfl).1, (h.2 _ rfl).2.1⟩

/-! ## Budget status and frontend lemmas -/

/-- Unfolding step of retier. -/
lemma retier_cons (f : Tier → Tier) (t : Txn) (rest : List Txn) :
    retier f (t :: rest) = { t with tier := f t.tier } :: retier f rest := rfl

/-- The spend fold ignores the cached tiers: retagging every transaction
arbitrarily leaves the fold unchanged. -/
lemma spentFold_retier (scope : Option String) (f : Tier → Tier) :
    ∀ (txs : List Txn) (a : Int),
    ((retier f txs).filter (inScope scope)).foldl (fun s t => s + t.amount) a =
      (txs.filter (inScope scope)).foldl (fun s t => s + t.amount) a := by
  intro txs
  induction txs with
  | nil => intro a; rfl
  | cons t rest ih =>
    intro a
    cases t with
    | mk i d amt c tr =>
      have hsc : inScope scope (Txn.mk i d amt c (f tr)) =
          inScope scope (Txn.mk i d amt c tr) := by
        cases scope <;> rfl
      rw [retier_cons, List.filter_cons, List.filter_cons]
      cases hb : inScope scope (Txn.mk i d amt c tr)
      · simp only [hsc, hb, Bool.false_eq_true, if_false]
        exact ih a
      · simp only [hsc, hb, if_true, List.foldl_cons]
        exact ih (a + amt)

/-- Budget status spend is blind to tiers. -/
lemma spentOf_retier (scope : Option String) (f : Tier → Tier)
    (txs : List Txn) : spentOf scope (retier f txs) = spentOf scope txs :=
  spentFold_retier scope f txs 0

/-- C8: budget status counts every tier toward spent, computes remaining
as limit minus spent (possibly negative) and an uncapped percentage
(above 100 exactly when over budget); the frontend clamps only the
progress-bar width at 100 and renders a negative remaining as an
over-budget amount of spent minus limit. -/
theorem C8_budget_status_uncapped (limit : Int) (scope : Option String)
    (txs : List Txn) (f : Tier → Tier) (hlim : 0 < limit) :
    (budgetStatus limit scope (retier f txs)).spent =
      (budgetStatus limit scope txs).spent ∧
    (budgetStatus limit scope txs).remaining =
      limit - (budgetStatus limit scope txs).spent ∧
    (100 < (budgetStatus limit scope txs).percentage ↔
      limit < (budgetStatus limit scope txs).spent) ∧
    progressBarWidth ((budgetStatus limit scope txs).percentage) ≤ 100 ∧
    ((budgetStatus limit scope txs).percentage ≤ 100 →
      progressBarWidth ((budgetStatus limit scope txs).percentage) =
        (budgetStatus limit scope txs).percentage) ∧
    ((budgetStatus limit scope txs).remaining < 0 →
      remainingDisplay ((budgetStatus limit scope txs).remaining) =
        ((budgetStatus limit scope txs).spent - limit, true)) := by
  have hL : (0 : Rat) < (limit : Rat) := by exact_mod_cast hlim
  refine ⟨spentOf_retier scope f txs, rfl, ?_, ?_, ?_, ?_⟩
  · have h1 : (100 : Rat) < (spentOf scope txs : Rat) / (limit : Rat) * 100 ↔
        (limit : Rat) < (spentOf scope txs : Rat) := by
      rw [div_mul_eq_mul_div, lt_div_iff₀ hL]
      constructor
      · intro h2; linarith
      · intro h2; linarith
    exact h1.trans Int.cast_lt
  · exact min_le_right _ _
  · intro hle
    exact min_eq_left hle
  · intro hneg
    have hns : ¬ 0 ≤ limit - spentOf scope txs := not_le.mpr hneg
    simp only [budgetStatus] at *
    simp [remainingDisplay, hns]

/-- Witness for C8: limit 2000 against the 1800 + 700 month; retagging
everything necessary leaves spent at 2500 and the negative remaining is
rendered as 500 over budget. -/
theorem C8_budget_status_uncapped_witness :
    (budgetStatus 2000 none (retier (fun _ => Tier.necessary)
        [Txn.mk 1 3 1800 (some "Shopping") Tier.discretionary,
         Txn.mk 2 9 700 (some "Shopping") Tier.frivolous])).spent =
      (budgetStatus 2000 none
        [Txn.mk 1 3 1800 (some "Shopping") Tier.discretionary,
         Txn.mk 2 9 700 (some "Shopping") Tier.frivolous]).spent ∧
    remainingDisplay ((budgetStatus 2000 none
        [Txn.mk 1 3 1800 (some "Shopping") Tier.discretionary,
         Txn.mk 2 9 700 (some "Shopping") Tier.frivolous]).remaining) =
      ((budgetStatus 2000 none
        [Txn.mk 1 3 1800 (some "Shopping") Tier.discretionary,
         Txn.mk 2 9 700 (some "Shopping") Tier.frivolous]).spent - 2000, true) := by
  have h := C8_budget_status_uncapped 2000 none
    [Txn.mk 1 3 1800 (some "Shopping") Tier.discretionary,
     Txn.mk 2 9 700 (some "Shopping") Tier.frivolous]
    (fun _ => Tier.necessary) (by decide)
  exact ⟨h.1, h.2.2.2.2.2 (by decide)⟩

/-- C9: the Spending status cell renders exactly one of the three tier
labels with flag precedence: Frivolous when is_frivolous, else
Discretionary when is_discretionary, else Necessary; in particular a
transaction with neither flag displays as Necessary. -/
theorem C9_status_cell_precedence :
    ∀ fFlag dFlag : Bool,
    (statusCell fFlag dFlag = StatusLabel.frivolousLabel ↔ fFlag = true) ∧
    (statusCell fFlag dFlag = StatusLabel.discretionaryLabel ↔
      (fFlag = false ∧ dFlag = true)) ∧
    (statusCell fFlag dFlag = StatusLabel.necessaryLabel ↔
      (fFlag = false ∧ dFlag = false)) := by
  decide

/-- C10: every frontend ratio is division-guarded: the net-worth change
percent is 0 when the history has fewer than two points or its first net
worth is not positive; the portfolio gain/loss percent is 0 when total
cost basis is not positive; a category share percent is 0 when total
spending is not positive. -/
theorem C10_ratio_guards :
    (∀ history : List Rat, history.length < 2 →
      (getChange history).percent = 0) ∧
    (∀ history : List Rat, ¬ 0 < history.headD 0 →
      (getChange history).percent = 0) ∧
    (∀ hs : List Holding, ¬ 0 < totalCostBasis hs →
      totalGainLossPercent hs = 0) ∧
    (∀ catTotal totalSpending : Rat, ¬ 0 < totalSpending →
      categoryPercent catTotal totalSpending = 0) := by
  refine ⟨?_, ?_, ?_, ?_⟩
  · intro hist hlen
    simp [getChange, hlen]
  · intro hist hfirst
    rw [List.headD_eq_head?] at hfirst
    by_cases hlen : hist.length < 2
    · simp [getChange, hlen]
    · simp [getChange, hlen, hfirst]
  · intro hs hcb
    simp [totalGainLossPercent, hcb]
  · intro catTotal totalSpending hts
    simp [categoryPercent, hts]

/-- Witness for C10: a one-point history, a negative-first history, an
empty holdings list and zero total spending all yield percent 0. -/
theorem C10_ratio_guards_witness :
    (getChange [(5 : Rat)]).percent = 0 ∧
    (getChange [(-3 : Rat), (4 : Rat)]).percent = 0 ∧
    totalGainLossPercent [] = 0 ∧
    categoryPercent 5 0 = 0 :=
  ⟨C10_ratio_guards.1 [(5 : Rat)] (by simp),
   C10_ratio_guards.2.1 [(-3 : Rat), (4 : Rat)] (by norm_num [List.headD]),
   C10_ratio_guards.2.2.1 [] (by norm_num [totalCostBasis]),
   C10_ratio_guards.2.2.2 5 0 (by norm_num)⟩

end NetWorthCalc
